import Mathlib

/-!
Verification development for the address-geocoding batch pipeline.

Python strings are modelled as lists of characters (`Str`).  The text
operations used by the source (`str.replace` with a literal pattern and an
empty replacement, `str.split(",")[0]`, `str.strip()`, `str.strip('"')`)
are given explicit executable definitions.  The geocoding service, cache
service and view-model loop are embedded as pure state-passing functions;
the external geocoder is a parameter returning an explicit result
(`found` / `noMatch` / `raised`), and the number of external invocations is
threaded through as a counter (a call-count spy).
-/

set_option autoImplicit false

namespace AddressGeo

abbrev Str := List Char

/-- Character data of a Lean string literal, as the Python string model. -/
def strL (s : String) : Str := s.data

/-- Whitespace characters removed by Python `str.strip()` (ASCII set). -/
def isPySpace (c : Char) : Bool :=
  c == ' ' || c == '\t' || c == '\n' || c == '\r' || c == Char.ofNat 11 || c == Char.ofNat 12

/-- Python `s.strip()`: drop whitespace from both ends. -/
def pyStrip (s : Str) : Str :=
  ((s.dropWhile isPySpace).reverse.dropWhile isPySpace).reverse

/-- Python `s.strip('"')`: drop double-quote characters from both ends. -/
def stripQuotes (s : Str) : Str :=
  ((s.dropWhile (fun c => c == '"')).reverse.dropWhile (fun c => c == '"')).reverse

/-- Python `s.split(",")[0]`: the segment before the first comma. -/
def firstCommaField (s : Str) : Str := s.takeWhile (fun c => c != ',')

/-- Fuel-driven scan implementing Python `s.replace(pat, repl)` for a
nonempty literal pattern: left-to-right, non-overlapping, the scan resumes
after the replaced occurrence.  The fuel is the length of the scanned
string, which suffices because each step consumes at least one character
when `pat` is nonempty (the source only replaces nonempty literals). -/
def pyReplaceFuel (pat repl : Str) : Nat → Str → Str
  | _, [] => []
  | 0, s => s
  | f+1, c :: rest =>
    if pat.isPrefixOf (c :: rest) then
      repl ++ pyReplaceFuel pat repl f ((c :: rest).drop pat.length)
    else
      c :: pyReplaceFuel pat repl f rest

/-- Python `s.replace(pat, repl)` (nonempty literal pattern). -/
def pyReplace (s pat repl : Str) : Str := pyReplaceFuel pat repl s.length s

/-- The first boilerplate marker removed by `clean_address`. -/
def jumiaMarker : Str := strL "Jumia- Pargo- Pickup station -"

/-- The second boilerplate marker removed by `clean_address`. -/
def pointMarker : Str := strL "Point 192 -"

/-- `GeocodingService.clean_address` on a string argument:
`address.replace("Jumia- Pargo- Pickup station -", "")`, then
`.replace("Point 192 -", "")`, then `.split(",")[0].strip()`. -/
def clean_address (address : Str) : Str :=
  pyStrip (firstCommaField (pyReplace (pyReplace address jumiaMarker []) pointMarker []))

/-- A Python value passed to the cleaners: either a string or some
non-string value (NaN, None, a number, ...), the latter indexed by a tag
so that all non-string inputs are represented. -/
inductive PyVal where
  | str (s : Str)
  | nonStr (tag : Nat)
deriving DecidableEq

/-- `GeocodingService.clean_address` including the `isinstance(address, str)`
guard: non-string input yields the empty string. -/
def clean_address_val : PyVal → Str
  | .str s => clean_address s
  | .nonStr _ => []

/-- `clean_address` from `main_legacy.py`: the same three text operations on
a string, but a non-string argument is returned unchanged (the guard wraps
the body instead of returning `""`). -/
def legacy_clean_address : PyVal → PyVal
  | .str address =>
    .str (pyStrip (firstCommaField (pyReplace (pyReplace address jumiaMarker []) pointMarker [])))
  | .nonStr tag => .nonStr tag

/-- The service cleaner viewed as a `PyVal → PyVal` map (it always returns
a string), for comparison with the legacy cleaner. -/
def service_clean_address (v : PyVal) : PyVal := .str (clean_address_val v)

/-! ### Cache and geocoding service -/

/-- A geocoding outcome as stored by the source: a pair of optional
coordinates, `(lat, lng)` when resolved and `(None, None)` when failed.
Coordinates are modelled as exact rationals (no arithmetic is performed on
them). -/
abbrev GeoResult := Option ℚ × Option ℚ

/-- The in-memory cache: a Python dict keyed by cleaned address, modelled
as an association list in insertion order. -/
abbrev Cache := List (Str × GeoResult)

/-- Python dict lookup `d.get(k)` on the association-list model. -/
def assoc_get {β : Type} : List (Str × β) → Str → Option β
  | [], _ => none
  | (k, v) :: rest, key => if k = key then some v else assoc_get rest key

/-- Python dict assignment `d[k] = v` on the association-list model:
overwrite in place if the key is present, append otherwise. -/
def assoc_set {β : Type} : List (Str × β) → Str → β → List (Str × β)
  | [], key, v => [(key, v)]
  | (k, v0) :: rest, key, v =>
    if k = key then (key, v) :: rest else (k, v0) :: assoc_set rest key v

/-- Result of one invocation of the external geocoding capability
(`self.geocode(address)` through the rate limiter):  a location with
coordinates, a falsy no-match response, or a raised exception. -/
inductive ExtLookupResult where
  | found (lat lng : ℚ)
  | noMatch
  | raised
deriving DecidableEq

/-- `GeocodingService.geocode_address`: check the cache first and return
the hit unchanged with no external call; on a miss invoke the external
lookup, cache a resolved pair on success, and cache `(None, None)` both
when no location is returned and when the call raises (the exception is
caught, never propagated).  Returns the result, the updated cache, and the
number of external invocations performed by this call (the spy count). -/
def geocode_address (lookup : Str → ExtLookupResult) (cache : Cache) (address : Str) :
    GeoResult × Cache × Nat :=
  match assoc_get cache address with
  | some cachedResult => (cachedResult, cache, 0)
  | none =>
    match lookup address with
    | .found lat lng =>
        ((some lat, some lng), assoc_set cache address (some lat, some lng), 1)
    | .noMatch => ((none, none), assoc_set cache address (none, none), 1)
    | .raised => ((none, none), assoc_set cache address (none, none), 1)

/-- The cache produced by a sequence of `geocode_address` calls run in
order from a starting cache (one run, or several runs sharing the cache). -/
def run_geocode_calls (lookup : Str → ExtLookupResult) (cache : Cache) (keys : List Str) : Cache :=
  keys.foldl (fun c k => (geocode_address lookup c k).2.1) cache

/-! ### CacheService persistence -/

/-- What the storage collaborator did when `CacheService.load_cache` read
the cache file: the file existed and unpickled, the file was absent, or
the read / deserialization raised (caught by the `except` branch). -/
inductive CacheLoadOutcome where
  | ok (data : Cache)
  | missing
  | failed
deriving DecidableEq

/-- `CacheService.load_cache`: the in-memory cache after loading.  A
successful read installs the persisted mapping; an absent file or any
caught read failure installs the empty mapping. -/
def load_cache : CacheLoadOutcome → Cache
  | .ok data => data
  | .missing => []
  | .failed => []

/-- Whether persisting succeeded or raised (caught). -/
inductive PersistOutcome where
  | ok
  | failed
deriving DecidableEq

/-- `CacheService.save_cache`: returns the in-memory cache after the call
together with whether the write persisted; a failed write is absorbed and
leaves the in-memory cache untouched. -/
def save_cache (mem : Cache) : PersistOutcome → Cache × Bool
  | .ok => (mem, true)
  | .failed => (mem, false)

/-! ### Models and view model -/

/-- The `Address` dataclass: original text, cleaned text, optional
coordinates. -/
structure Address where
  original : Str
  cleaned : Str
  latitude : Option ℚ := none
  longitude : Option ℚ := none
deriving DecidableEq

/-- `Address.is_geocoded`: both coordinate fields are present. -/
def Address.is_geocoded (a : Address) : Bool :=
  a.latitude.isSome && a.longitude.isSome

/-- The `ProcessingStats` dataclass. -/
structure ProcessingStats where
  total_addresses : Nat := 0
  processed_addresses : Nat := 0
  successful_geocodes : Nat := 0
  failed_geocodes : Nat := 0
  current_batch : Nat := 0
  total_batches : Nat := 0
deriving DecidableEq

/-- `ProcessingStats.progress_percentage`: guarded ratio as an exact
rational percentage. -/
def ProcessingStats.progress_percentage (s : ProcessingStats) : ℚ :=
  if s.total_addresses = 0 then 0
  else ((s.processed_addresses : ℚ) / (s.total_addresses : ℚ)) * 100

/-- `ProcessingStats.success_rate`: guarded ratio as an exact rational
percentage. -/
def ProcessingStats.success_rate (s : ProcessingStats) : ℚ :=
  if s.processed_addresses = 0 then 0
  else ((s.successful_geocodes : ℚ) / (s.processed_addresses : ℚ)) * 100

/-- The mutable state threaded through a view-model run: the shared cache,
the external-call spy count, the number of `save_cache` and `save_results`
invocations, and the statistics object. -/
structure RunState where
  cache : Cache
  extCalls : Nat := 0
  cacheSaves : Nat := 0
  resultSaves : Nat := 0
  stats : ProcessingStats
deriving DecidableEq

/-- `GeocodingViewModel.load_addresses` after a successful CSV read: each
row's raw text is quote-stripped (non-strings become `""`), cleaned, and
wrapped in an `Address`; the statistics receive the total count and the
ceiling batch count. -/
def load_addresses (batchSize : Nat) (rows : List PyVal) : List Address × ProcessingStats :=
  let addresses := rows.map (fun row =>
    let original := match row with
      | .str s => stripQuotes s
      | .nonStr _ => []
    { original := original, cleaned := clean_address original : Address })
  (addresses,
   { total_addresses := addresses.length,
     total_batches := (addresses.length + batchSize - 1) / batchSize })

/-- `GeocodingViewModel.process_batch`: geocode every address of the batch
in order, assign the coordinates into the record, keep batch-local
processed / successful counts (saving the cache every 100 processed), then
fold the batch counts into the overall statistics, recompute
`failed_geocodes` as `processed - successful`, and record the batch
number. -/
def process_batch (lookup : Str → ExtLookupResult) (st : RunState)
    (batch : List Address) (batchNum : Nat) : RunState × List Address :=
  let acc := batch.foldl (fun (acc : RunState × List Address × Nat × Nat) address =>
      let (st, done, processed, successful) := acc
      let r := geocode_address lookup st.cache address.cleaned
      let address := { address with latitude := r.1.1, longitude := r.1.2 }
      let processed := processed + 1
      let successful := successful + (if address.is_geocoded then 1 else 0)
      let st := { st with
        cache := r.2.1,
        extCalls := st.extCalls + r.2.2,
        cacheSaves := st.cacheSaves + (if processed % 100 = 0 then 1 else 0) }
      (st, done ++ [address], processed, successful))
    (st, ([] : List Address), 0, 0)
  let (st1, done, processed, successful) := acc
  let stats := st1.stats
  let stats := { stats with
    processed_addresses := stats.processed_addresses + processed,
    successful_geocodes := stats.successful_geocodes + successful }
  let stats := { stats with
    failed_geocodes := stats.processed_addresses - stats.successful_geocodes,
    current_batch := batchNum }
  ({ st1 with stats := stats }, done)

/-- `GeocodingViewModel.process_all_addresses`: an empty address list
returns `False` immediately (no batch is entered, nothing is looked up or
saved); otherwise batch numbers `1..total_batches` each slice
`addresses[start:end]`, process the slice, splice the updated records back,
and perform the per-batch `save_results` and `save_cache`.  Returns the
success flag, the final state, and the final records. -/
def process_all_addresses (lookup : Str → ExtLookupResult) (batchSize : Nat)
    (st : RunState) (addresses : List Address) : Bool × RunState × List Address :=
  if addresses = [] then (false, st, addresses)
  else
    let n := st.stats.total_batches
    let r := (List.range n).foldl (fun (acc : RunState × List Address) i =>
        let (st, addrs) := acc
        let batchNum := i + 1
        let start := (batchNum - 1) * batchSize
        let stop := min (start + batchSize) addrs.length
        let batch := (addrs.drop start).take (stop - start)
        let (st, processedBatch) := process_batch lookup st batch batchNum
        let addrs := addrs.take start ++ processedBatch ++ addrs.drop stop
        let st := { st with
          resultSaves := st.resultSaves + 1,
          cacheSaves := st.cacheSaves + 1 }
        (st, addrs))
      (st, addresses)
    (true, r.1, r.2)

/-- The coordinate mapping built by `GeocodingViewModel.save_results`: a
dict keyed by the original address holding the coordinates of every
geocoded record (later duplicates overwrite the same key).  The
`"lat,lng"` value string is modelled as the coordinate pair itself. -/
def coordinate_map (addresses : List Address) : List (Str × (ℚ × ℚ)) :=
  addresses.foldl (fun m address =>
    match address.latitude, address.longitude with
    | some lat, some lng => assoc_set m address.original (lat, lng)
    | _, _ => m) []

/-! ### The end-to-end scenario of the specification -/

/-- The three input rows of the end-to-end scenario. -/
def scenarioRows : List PyVal :=
  [.str (strL "A, city"), .str (strL "Point 192 - B"), .str (strL "A, city")]

/-- The scenario's external lookup: `(1.0, 2.0)` for `"A"`, no match
otherwise. -/
def scenarioLookup (s : Str) : ExtLookupResult :=
  if s = strL "A" then .found 1 2 else .noMatch

/-- The scenario's loaded addresses and initial statistics (batch size 2). -/
def scenarioLoaded : List Address × ProcessingStats := load_addresses 2 scenarioRows

/-- The scenario's full run from an empty cache. -/
def scenarioRun : Bool × RunState × List Address :=
  process_all_addresses scenarioLookup 2
    { cache := [], stats := scenarioLoaded.2 } scenarioLoaded.1

/-! ## Helper lemmas -/

/-- A pattern with no occurrence in the scanned string is never replaced,
for any amount of fuel. -/
theorem pyReplaceFuel_eq_self_of_not_infix (pat repl : Str) (f : Nat) :
    ∀ s : Str, ¬ pat <:+: s → pyReplaceFuel pat repl f s = s := by
  induction f with
  | zero => intro s _; cases s <;> rfl
  | succ f ih =>
    intro s h
    cases s with
    | nil => rfl
    | cons c rest =>
      have hpre : ¬ pat.isPrefixOf (c :: rest) = true := by
        intro hp
        exact h (List.IsPrefix.isInfix (List.isPrefixOf_iff_prefix.mp hp))
      have htail : ¬ pat <:+: rest := fun hinf => h (List.infix_cons hinf)
      simp only [pyReplaceFuel, if_neg hpre]
      rw [ih rest htail]

/-- Python `replace` is the identity when the pattern does not occur. -/
theorem pyReplace_eq_self_of_not_infix (s pat repl : Str) (h : ¬ pat <:+: s) :
    pyReplace s pat repl = s :=
  pyReplaceFuel_eq_self_of_not_infix pat repl s.length s h

/-- `takeWhile` keeps a list all of whose elements satisfy the predicate. -/
theorem takeWhile_eq_self_of_forall (p : Char → Bool) :
    ∀ l : Str, (∀ a ∈ l, p a = true) → l.takeWhile p = l := by
  intro l
  induction l with
  | nil => intro _; rfl
  | cons c rest ih =>
    intro h
    have hc := h c (List.mem_cons_self c rest)
    simp [List.takeWhile_cons, hc, ih (fun a ha => h a (List.mem_cons_of_mem c ha))]

/-- The head left by `dropWhile` falsifies the predicate. -/
theorem head?_dropWhile_false (p : Char → Bool) :
    ∀ l : Str, ∀ x ∈ (l.dropWhile p).head?, p x = false := by
  intro l
  induction l with
  | nil => intro x hx; simp at hx
  | cons c rest ih =>
    intro x hx
    by_cases hc : p c
    · rw [List.dropWhile_cons_of_pos hc] at hx
      exact ih x hx
    · rw [List.dropWhile_cons_of_neg hc] at hx
      simp only [List.head?_cons, Option.mem_def, Option.some.injEq] at hx
      subst hx
      exact Bool.eq_false_iff.mpr hc

/-- `dropWhile` is the identity when the head already falsifies the
predicate. -/
theorem dropWhile_eq_self_of_head (p : Char → Bool) (l : Str)
    (h : ∀ x ∈ l.head?, p x = false) : l.dropWhile p = l := by
  cases l with
  | nil => rfl
  | cons c rest =>
    have hc := h c (by simp)
    exact List.dropWhile_cons_of_neg (by simp [hc])

/-- `dropWhile` keeps the last element when its result is nonempty. -/
theorem getLast?_dropWhile (p : Char → Bool) :
    ∀ l : Str, l.dropWhile p ≠ [] → (l.dropWhile p).getLast? = l.getLast? := by
  intro l
  induction l with
  | nil => intro h; exact absurd rfl h
  | cons c rest ih =>
    intro h
    by_cases hc : p c
    · rw [List.dropWhile_cons_of_pos hc] at h ⊢
      rw [ih h]
      have hrest : rest ≠ [] := by
        intro he
        subst he
        simp [List.dropWhile] at h
      cases rest with
      | nil => exact absurd rfl hrest
      | cons b t => rw [List.getLast?_cons_cons]
    · rw [List.dropWhile_cons_of_neg hc]

/-- Elements of a stripped string come from the string. -/
theorem mem_pyStrip {x : Char} {s : Str} (h : x ∈ pyStrip s) : x ∈ s := by
  unfold pyStrip at h
  rw [List.mem_reverse] at h
  have h1 : x ∈ (s.dropWhile isPySpace).reverse := (List.dropWhile_sublist _).subset h
  rw [List.mem_reverse] at h1
  exact (List.dropWhile_sublist _).subset h1

/-- `pyStrip` is the identity on a string whose two ends are not
whitespace. -/
theorem pyStrip_eq_self (l : Str) (h1 : ∀ x ∈ l.head?, isPySpace x = false)
    (h2 : ∀ x ∈ l.getLast?, isPySpace x = false) : pyStrip l = l := by
  unfold pyStrip
  rw [dropWhile_eq_self_of_head _ l h1]
  rw [dropWhile_eq_self_of_head _ l.reverse (by simpa [List.head?_reverse] using h2)]
  exact List.reverse_reverse l

/-- The head of a stripped string is not whitespace. -/
theorem head?_pyStrip_false (s : Str) : ∀ x ∈ (pyStrip s).head?, isPySpace x = false := by
  intro x hx
  unfold pyStrip at hx
  rw [List.head?_reverse] at hx
  by_cases hu : (s.dropWhile isPySpace).reverse.dropWhile isPySpace = []
  · rw [hu] at hx
    simp at hx
  · rw [getLast?_dropWhile _ _ hu, List.getLast?_reverse] at hx
    exact head?_dropWhile_false _ s x hx

/-- The last element of a stripped string is not whitespace. -/
theorem getLast?_pyStrip_false (s : Str) : ∀ x ∈ (pyStrip s).getLast?, isPySpace x = false := by
  intro x hx
  unfold pyStrip at hx
  rw [List.getLast?_reverse] at hx
  exact head?_dropWhile_false _ _ x hx

/-- Stripping twice is stripping once. -/
theorem pyStrip_idem (s : Str) : pyStrip (pyStrip s) = pyStrip s :=
  pyStrip_eq_self (pyStrip s) (head?_pyStrip_false s) (getLast?_pyStrip_false s)

/-- No character of a cleaned address is a comma (the cleaner truncates at
the first comma). -/
theorem mem_clean_address_comma {x : Char} {s : Str} (h : x ∈ clean_address s) :
    (x != ',') = true := by
  unfold clean_address firstCommaField at h
  have h2 : x ∈ List.takeWhile (fun c => c != ',')
      (pyReplace (pyReplace s jumiaMarker []) pointMarker []) := mem_pyStrip h
  have h3 := List.mem_takeWhile_imp h2
  exact h3

/-- Looking up the key just written returns the written value. -/
theorem assoc_get_set_self {β : Type} (m : List (Str × β)) (k : Str) (v : β) :
    assoc_get (assoc_set m k v) k = some v := by
  induction m with
  | nil => simp [assoc_set, assoc_get]
  | cons p rest ih =>
    obtain ⟨k0, v0⟩ := p
    by_cases hk : k0 = k
    · subst hk
      simp [assoc_set, assoc_get]
    · simp [assoc_set, assoc_get, hk, ih]

/-- Writing one key leaves every other key's binding unchanged. -/
theorem assoc_get_set_ne {β : Type} (m : List (Str × β)) (k k2 : Str) (v : β)
    (h : k2 ≠ k) : assoc_get (assoc_set m k2 v) k = assoc_get m k := by
  induction m with
  | nil => simp [assoc_set, assoc_get, h]
  | cons p rest ih =>
    obtain ⟨k0, v0⟩ := p
    by_cases hk : k0 = k2
    · subst hk
      simp [assoc_set, assoc_get, h]
    · simp [assoc_set, assoc_get, hk, ih]

/-- One `geocode_address` call never disturbs an existing cache binding:
it either hits the cache (no write) or writes under a different, absent
key. -/
theorem geocode_address_preserves_hit (lookup : Str → ExtLookupResult) (c : Cache)
    (k k2 : Str) (v : GeoResult) (h : assoc_get c k = some v) :
    assoc_get (geocode_address lookup c k2).2.1 k = some v := by
  cases hc : assoc_get c k2 with
  | some w => simp [geocode_address, hc, h]
  | none =>
    have hne : k2 ≠ k := by
      intro he
      subst he
      rw [h] at hc
      cases hc
    cases hl : lookup k2 <;>
      simp [geocode_address, hc, hl, assoc_get_set_ne _ _ _ _ hne, h]

/-- A whole sequence of `geocode_address` calls never disturbs an existing
cache binding. -/
theorem run_geocode_calls_preserves_hit (lookup : Str → ExtLookupResult) (ks : List Str) :
    ∀ (c : Cache) (k : Str) (v : GeoResult), assoc_get c k = some v →
      assoc_get (run_geocode_calls lookup c ks) k = some v := by
  induction ks with
  | nil =>
    intro c k v h
    simpa [run_geocode_calls] using h
  | cons k2 rest ih =>
    intro c k v h
    show assoc_get (run_geocode_calls lookup (geocode_address lookup c k2).2.1 rest) k = some v
    exact ih _ k v (geocode_address_preserves_hit lookup c k k2 v h)

/-! ## Claims -/

/-- Claim C1: for every address key already present in the cache,
`geocode_address` returns the cached value unchanged, leaves the cache
untouched, and performs zero external calls; and this still holds after
any later sequence of calls sharing the cache (in particular a key cached
as `(None, None)` stays unresolved and is never retried). -/
theorem geocode_cache_hit_no_external_call (lookup : Str → ExtLookupResult) (c : Cache)
    (k : Str) (v : GeoResult) (h : assoc_get c k = some v) :
    geocode_address lookup c k = (v, c, 0) ∧
    ∀ ks : List Str, geocode_address lookup (run_geocode_calls lookup c ks) k =
      (v, run_geocode_calls lookup c ks, 0) := by
  have base : ∀ c2 : Cache, assoc_get c2 k = some v →
      geocode_address lookup c2 k = (v, c2, 0) := by
    intro c2 h2
    simp [geocode_address, h2]
  exact ⟨base c h, fun ks => base _ (run_geocode_calls_preserves_hit lookup ks c k v h)⟩

/-- Witness for C1: a key cached as the failed outcome `(None, None)` is
returned as-is with zero external calls, even though the external lookup
would now resolve it. -/
theorem geocode_cache_hit_no_external_call_witness :
    assoc_get [(strL "B", ((none : Option ℚ), (none : Option ℚ)))] (strL "B") =
      some (none, none) ∧
    geocode_address (fun _ => .found 7 8) [(strL "B", (none, none))] (strL "B") =
      ((none, none), [(strL "B", (none, none))], 0) :=
  ⟨by decide, (geocode_cache_hit_no_external_call _ _ _ _ (by decide)).1⟩

/-- Claim C3: on a cache miss, a raised or match-less external lookup
yields the failed outcome `(None, None)` (the exception is absorbed, the
function still returns a value), and in every case the outcome returned is
written to the cache, so the key is present afterwards. -/
theorem geocode_miss_failure_absorbed (lookup : Str → ExtLookupResult) (c : Cache)
    (k : Str) (hmiss : assoc_get c k = none) :
    ((∀ lat lng, lookup k ≠ .found lat lng) → (geocode_address lookup c k).1 = (none, none)) ∧
    assoc_get (geocode_address lookup c k).2.1 k = some (geocode_address lookup c k).1 := by
  cases hl : lookup k with
  | found lat lng =>
    refine ⟨fun hno => absurd rfl (hno lat lng), ?_⟩
    simp [geocode_address, hmiss, hl, assoc_get_set_self]
  | noMatch =>
    refine ⟨fun _ => ?_, ?_⟩ <;> simp [geocode_address, hmiss, hl, assoc_get_set_self]
  | raised =>
    refine ⟨fun _ => ?_, ?_⟩ <;> simp [geocode_address, hmiss, hl, assoc_get_set_self]

/-- Witness for C3: an uncached key whose lookup raises is returned as the
failed outcome and cached as such. -/
theorem geocode_miss_failure_absorbed_witness :
    assoc_get ([] : Cache) (strL "A") = none ∧
    (geocode_address (fun _ => .raised) [] (strL "A")).1 = (none, none) ∧
    assoc_get (geocode_address (fun _ => .raised) [] (strL "A")).2.1 (strL "A") =
      some (geocode_address (fun _ => .raised) [] (strL "A")).1 :=
  ⟨rfl,
   (geocode_miss_failure_absorbed (fun _ => .raised) [] (strL "A") rfl).1
     (fun _ _ h => by cases h),
   (geocode_miss_failure_absorbed (fun _ => .raised) [] (strL "A") rfl).2⟩

/-- Claim C5: insert-or-keep — once a key is cached with some outcome, no
later sequence of `geocode_address` calls changes its cached value. -/
theorem cache_insert_or_keep (lookup : Str → ExtLookupResult) (c : Cache)
    (k : Str) (v : GeoResult) (ks : List Str) (h : assoc_get c k = some v) :
    assoc_get (run_geocode_calls lookup c ks) k = some v :=
  run_geocode_calls_preserves_hit lookup ks c k v h

/-- Witness for C5: a failed binding survives a run that revisits the key
with a lookup that would now succeed, and survives writes to other keys. -/
theorem cache_insert_or_keep_witness :
    assoc_get [(strL "A", ((none : Option ℚ), (none : Option ℚ)))] (strL "A") =
      some (none, none) ∧
    assoc_get (run_geocode_calls (fun _ => .found 5 6)
      [(strL "A", (none, none))] [strL "A", strL "B"]) (strL "A") = some (none, none) :=
  ⟨by decide, cache_insert_or_keep _ _ _ _ _ (by decide)⟩

/-- Claim C4, counterexample: deleting one occurrence of a marker can
splice the surrounding text into a fresh occurrence, so the cleaned output
can contain a marker and cleaning is not idempotent there.  On the input
`"Point 19Point 192 -2 -"` the cleaner returns exactly `"Point 192 -"`,
which contains the marker, and a second cleaning removes it. -/
theorem clean_address_marker_violation :
    (pointMarker <:+: clean_address (strL "Point 19Point 192 -2 -")) ∧
    clean_address (clean_address (strL "Point 19Point 192 -2 -")) ≠
      clean_address (strL "Point 19Point 192 -2 -") := by
  exact ⟨by decide, by decide⟩

/-- Claim C4 (amended): whenever the cleaned output contains no marker
substring — which a single deletion pass does not guarantee —
`clean_address` is idempotent there: the markers are then untouched by the
replace passes, the output has no comma, and it is already stripped. -/
theorem clean_address_idempotent_of_marker_free (x : Str)
    (h1 : ¬ jumiaMarker <:+: clean_address x)
    (h2 : ¬ pointMarker <:+: clean_address x) :
    clean_address (clean_address x) = clean_address x := by
  have hy : ∀ a ∈ clean_address x, (a != ',') = true :=
    fun a ha => mem_clean_address_comma ha
  have e1 : pyReplace (clean_address x) jumiaMarker [] = clean_address x :=
    pyReplace_eq_self_of_not_infix _ _ _ h1
  have e2 : pyReplace (clean_address x) pointMarker [] = clean_address x :=
    pyReplace_eq_self_of_not_infix _ _ _ h2
  calc
    clean_address (clean_address x)
        = pyStrip (firstCommaField (pyReplace
            (pyReplace (clean_address x) jumiaMarker []) pointMarker [])) := rfl
    _ = pyStrip (firstCommaField (clean_address x)) := by rw [e1, e2]
    _ = pyStrip (clean_address x) := by
          unfold firstCommaField
          rw [takeWhile_eq_self_of_forall _ _ hy]
    _ = clean_address x :=
          pyStrip_idem (firstCommaField (pyReplace (pyReplace x jumiaMarker []) pointMarker []))

/-- Witness for the amended C4: the marker-freedom hypotheses hold for
`"A, city"` and the cleaner is idempotent there. -/
theorem clean_address_idempotent_witness :
    (¬ jumiaMarker <:+: clean_address (strL "A, city")) ∧
    (¬ pointMarker <:+: clean_address (strL "A, city")) ∧
    clean_address (clean_address (strL "A, city")) = clean_address (strL "A, city") :=
  ⟨by decide, by decide,
   clean_address_idempotent_of_marker_free (strL "A, city") (by decide) (by decide)⟩

/-- Claim C6: a missing cache file or a caught read failure leaves the
in-memory cache empty, and a persistence attempt never changes the
in-memory cache whether it succeeds or fails; both operations are total
(no error propagates). -/
theorem cache_persistence_failures_absorbed :
    load_cache .missing = [] ∧ load_cache .failed = [] ∧
    ∀ (mem : Cache) (r : PersistOutcome), (save_cache mem r).1 = mem :=
  ⟨rfl, rfl, fun mem r => by cases r <;> rfl⟩

/-- Claim C7: every non-string input (any tag) and the empty-string input
are cleaned to the empty string. -/
theorem clean_address_empty_or_non_string (tag : Nat) :
    clean_address_val (.nonStr tag) = strL "" ∧ clean_address_val (.str (strL "")) = strL "" :=
  ⟨rfl, rfl⟩

/-- Claim C8: with zero addresses, `process_all_addresses` returns `False`
immediately; no batch runs, so the external-call spy and both save
counters are untouched. -/
theorem process_all_addresses_empty_aborts (lookup : Str → ExtLookupResult)
    (batchSize : Nat) (st : RunState) :
    process_all_addresses lookup batchSize st [] = (false, st, []) ∧
    (process_all_addresses lookup batchSize st []).2.1.extCalls = st.extCalls ∧
    (process_all_addresses lookup batchSize st []).2.1.cacheSaves = st.cacheSaves ∧
    (process_all_addresses lookup batchSize st []).2.1.resultSaves = st.resultSaves := by
  refine ⟨?_, ?_, ?_, ?_⟩ <;> simp [process_all_addresses]

/-- Claim C9: the percentage properties are guarded — zero totals yield
`0.0` instead of a division error (the embedding is a total function). -/
theorem stats_division_guarded (s : ProcessingStats) :
    (s.total_addresses = 0 → s.progress_percentage = 0) ∧
    (s.processed_addresses = 0 → s.success_rate = 0) := by
  constructor <;> intro h <;>
    simp [ProcessingStats.progress_percentage, ProcessingStats.success_rate, h]

/-- Witness for C9: the guards fire on the all-zero statistics record. -/
theorem stats_division_guarded_witness :
    ({} : ProcessingStats).total_addresses = 0 ∧
    ({} : ProcessingStats).processed_addresses = 0 ∧
    ProcessingStats.progress_percentage {} = 0 ∧
    ProcessingStats.success_rate {} = 0 :=
  ⟨rfl, rfl, (stats_division_guarded {}).1 rfl, (stats_division_guarded {}).2 rfl⟩

/-- Claim C2: on the three scenario rows with batch size 2 and the
scenario lookup, the normalized forms are `A`, `B`, `A`; the cache ends
with exactly the resolved binding for `A` and the failed binding for `B`;
the external capability is invoked exactly twice; both `"A, city"` rows
carry coordinates in the output records; the original-keyed coordinate
mapping has exactly one entry; and the reported success rate is
`2/3` of `100`, i.e. `200/3 ≈ 66.7`. -/
theorem end_to_end_scenario :
    (scenarioLoaded.1.map Address.cleaned = [strL "A", strL "B", strL "A"]) ∧
    scenarioRun.2.1.cache = [(strL "A", (some 1, some 2)), (strL "B", (none, none))] ∧
    scenarioRun.2.1.extCalls = 2 ∧
    (scenarioRun.2.2.map (fun a => (a.original, a.latitude, a.longitude)) =
      [(strL "A, city", some 1, some 2), (strL "Point 192 - B", none, none),
       (strL "A, city", some 1, some 2)]) ∧
    coordinate_map scenarioRun.2.2 = [(strL "A, city", (1, 2))] ∧
    scenarioRun.2.1.stats.processed_addresses = 3 ∧
    scenarioRun.2.1.stats.successful_geocodes = 2 ∧
    scenarioRun.2.1.stats.success_rate = 200 / 3 ∧
    scenarioRun.1 = true := by
  have hstats : scenarioRun.2.1.stats =
      { total_addresses := 3, processed_addresses := 3, successful_geocodes := 2,
        failed_geocodes := 1, current_batch := 2, total_batches := 2 } := by decide
  refine ⟨by decide, by decide, by decide, by decide, by decide, by decide, by decide,
    ?_, by decide⟩
  rw [hstats]
  norm_num [ProcessingStats.success_rate]

/-- Claim C10, counterexample: the legacy cleaner returns a non-string
input unchanged, while the service cleaner maps it to the empty string, so
the two functions differ. -/
theorem legacy_service_clean_disagree_non_string :
    legacy_clean_address (.nonStr 0) ≠ service_clean_address (.nonStr 0) := by
  decide

/-- Claim C10 (amended): on every string input the legacy and service
cleaners agree (the same three text operations in the same order); they
differ only on non-string inputs, which legacy returns unchanged and the
service maps to the empty string. -/
theorem legacy_service_clean_agree_on_strings (s : Str) :
    legacy_clean_address (.str s) = service_clean_address (.str s) := rfl

end AddressGeo
